import Mathlib

/-!
Verification of the versatileprint quota ledger, order lifecycle, admission
controller and CSV bulk admission against their natural-language specification.

The definitions below are a shallow embedding of the Python source:
  - `app/models/quota.py`   (ClientQuota, QuotaTopup)
  - `app/services/quota_service.py` (QuotaService)
  - `app/models/order.py`   (Order, OrderStatus)
  - `app/services/order_service.py` (OrderService)
  - `app/services/csv_service.py`  (CSVService)
  - `app/utils/validators.py` (validate_csv_row_data)

Python integers are unbounded, so quantities and counters are `Int`.
Database rows are explicit state (`Option ClientQuota` for the one
(client, month) quota row the operations touch, a `List OrderRec` for the
orders table).  `save()` commits immediately in the source (BaseModel.save),
so a record created by `get_or_create` persists even when the surrounding
operation later fails and rolls back; the embedding reflects that.
Exception points in the alert side-effects are modelled by boolean oracles
(`bw_send_fails`, `color_send_fails`); the race window between the
availability check and the deduction inside `create_order` is modelled by an
`interfere` function on the quota row, standing for concurrent deducts.
Float percentage formatting inside error strings is elided; thresholds and
usage ratios are exact rationals.
-/

namespace VersatilePrint

/-- A quota top-up row (`QuotaTopup` in `app/models/quota.py`), restricted to
the fields the ledger arithmetic reads; the list a function receives stands
for `QuotaTopup.get_topups_for_month` for the (client, month) at hand. -/
structure QuotaTopup where
  bw_added : Int
  color_added : Int
  deriving Repr, DecidableEq

/-- A `client_quotas` row (`ClientQuota` in `app/models/quota.py`) for one
(client, month), restricted to the mutable fields the ledger reads/writes. -/
structure ClientQuota where
  bw_limit : Int
  color_limit : Int
  bw_used : Int
  color_used : Int
  bw_alert_sent : Bool
  color_alert_sent : Bool
  deriving Repr, DecidableEq

/-- Sum of `bw_added` over the month's top-ups. -/
def sumBw (topups : List QuotaTopup) : Int :=
  (topups.map (fun t => t.bw_added)).sum

/-- Sum of `color_added` over the month's top-ups. -/
def sumColor (topups : List QuotaTopup) : Int :=
  (topups.map (fun t => t.color_added)).sum

/-- Embeds `ClientQuota.get_available_bw` (include_topups=True):
`max(0, bw_limit + sum(topups.bw_added) - bw_used)`. -/
def get_available_bw (q : ClientQuota) (topups : List QuotaTopup) : Int :=
  max 0 (q.bw_limit + sumBw topups - q.bw_used)

/-- Embeds `ClientQuota.get_available_color` (include_topups=True). -/
def get_available_color (q : ClientQuota) (topups : List QuotaTopup) : Int :=
  max 0 (q.color_limit + sumColor topups - q.color_used)

/-- Embeds `ClientQuota.get_total_limits`: `(bw_limit + topups, color_limit + topups)`. -/
def get_total_limits (q : ClientQuota) (topups : List QuotaTopup) : Int × Int :=
  (q.bw_limit + sumBw topups, q.color_limit + sumColor topups)

/-- Embeds `ClientQuota.can_fulfill`: rejects when a requested quantity exceeds the
corresponding available amount, B&W checked first. -/
def can_fulfill (q : ClientQuota) (topups : List QuotaTopup)
    (bw_quantity color_quantity : Int) : Bool × String :=
  let available_bw := get_available_bw q topups
  let available_color := get_available_color q topups
  if bw_quantity > available_bw then
    (false, s!"Insufficient B&W quota. Available: {available_bw}, Requested: {bw_quantity}")
  else if color_quantity > available_color then
    (false, s!"Insufficient Color quota. Available: {available_color}, Requested: {color_quantity}")
  else
    (true, "OK")

/-- Outcome of `ClientQuota.check_usage_threshold`: the two `*_exceeded`
flags and the usage ratios (exact rationals in place of Python floats). -/
structure ThresholdStatus where
  bw_exceeded : Bool
  color_exceeded : Bool
  bw_percentage : ℚ
  color_percentage : ℚ
  deriving Repr, DecidableEq

/-- Embeds `ClientQuota.check_usage_threshold`: a channel is `exceeded` when its
usage ratio reaches the threshold and its alert flag is not yet latched.
The ratio `used / total` is written `mkRat used total.toNat`, which for the
guarding `total > 0` equals rational division (`mkRat_toNat_eq_div`
below). -/
def check_usage_threshold (threshold : ℚ) (q : ClientQuota)
    (topups : List QuotaTopup) : ThresholdStatus :=
  let totals := get_total_limits q topups
  let bw_percentage : ℚ := if totals.1 > 0 then mkRat q.bw_used totals.1.toNat else 0
  let color_percentage : ℚ := if totals.2 > 0 then mkRat q.color_used totals.2.toNat else 0
  { bw_exceeded := decide (bw_percentage ≥ threshold) && !q.bw_alert_sent
    color_exceeded := decide (color_percentage ≥ threshold) && !q.color_alert_sent
    bw_percentage := bw_percentage
    color_percentage := color_percentage }

/-- Embeds `ClientQuota.mark_alert_sent`: latch the flag for the given channel. -/
def mark_alert_sent (q : ClientQuota) (alert_type : String) : ClientQuota :=
  if alert_type = "bw" then { q with bw_alert_sent := true }
  else if alert_type = "color" then { q with color_alert_sent := true }
  else q

/-- Read-only configuration the services consult (`config.py` defaults). -/
structure Config where
  default_bw_limit : Int
  default_color_limit : Int
  quota_warning_threshold : ℚ
  csv_idempotency_mode : String
  max_active_orders : Int
  deriving Repr, DecidableEq

/-- The default configuration values from `config.py`. -/
def defaultConfig : Config :=
  { default_bw_limit := 3000
    default_color_limit := 2000
    quota_warning_threshold := mkRat 4 5
    csv_idempotency_mode := "reject"
    max_active_orders := 10 }

/-- The fresh record `ClientQuota.get_or_create` builds when none exists:
seeded with the configured default limits, zero usage, unlatched flags. -/
def freshQuota (cfg : Config) : ClientQuota :=
  { bw_limit := cfg.default_bw_limit
    color_limit := cfg.default_color_limit
    bw_used := 0
    color_used := 0
    bw_alert_sent := false
    color_alert_sent := false }

/-- Embeds `ClientQuota.get_or_create` / `QuotaService.get_or_create_quota`: return
the existing row, or build and persist (`save()` commits) a fresh one.
The second component is the stored row after the call. -/
def get_or_create (cfg : Config) (qs : Option ClientQuota) :
    ClientQuota × Option ClientQuota :=
  match qs with
  | some q => (q, some q)
  | none => (freshQuota cfg, some (freshQuota cfg))

/-- Embeds `app/utils/helpers.format_quota_message` (the float percentage clause of
the Python message is elided; the interpolated integers are kept). -/
def format_quota_message (quota_type : String) (available total requested : Int) : String :=
  s!"Insufficient {quota_type} quota. Available: {available}/{total}. Requested: {requested}. Please reduce quantity or request a top-up."

/-- The `{bw_available, color_available, bw_used, color_used}` dictionary
`QuotaService.check_quota_available` returns on success. -/
structure AvailableInfo where
  bw_available : Int
  color_available : Int
  bw_used : Int
  color_used : Int
  deriving Repr, DecidableEq

/-- Result of `QuotaService.check_quota_available`, plus the stored quota row
after the call (the call may have persisted a freshly created row). -/
structure CheckResult where
  ok : Bool
  error : Option String
  available : Option AvailableInfo
  state : Option ClientQuota
  deriving Repr, DecidableEq

/-- Embeds `QuotaService.check_quota_available`: get-or-create the month's quota row,
run `can_fulfill`, and on failure rebuild the detailed message via
`format_quota_message`. -/
def check_quota_available (cfg : Config) (topups : List QuotaTopup)
    (bw_quantity color_quantity : Int) (qs : Option ClientQuota) : CheckResult :=
  let goc := get_or_create cfg qs
  let quota := goc.1
  let cf := can_fulfill quota topups bw_quantity color_quantity
  if cf.1 then
    { ok := true
      error := none
      available := some
        { bw_available := get_available_bw quota topups
          color_available := get_available_color quota topups
          bw_used := quota.bw_used
          color_used := quota.color_used }
      state := goc.2 }
  else
    let totals := get_total_limits quota topups
    let message :=
      if bw_quantity > get_available_bw quota topups then
        format_quota_message "B&W" (get_available_bw quota topups) totals.1 bw_quantity
      else if color_quantity > get_available_color quota topups then
        format_quota_message "Color" (get_available_color quota topups) totals.2 color_quantity
      else cf.2
    { ok := false, error := some message, available := none, state := goc.2 }

/-- Result of `QuotaService.deduct_quota`, plus the stored quota row after the
call and whether `_send_quota_alert` ran to completion for each channel. -/
structure DeductResult where
  success : Bool
  error : Option String
  state : Option ClientQuota
  bw_alert_fired : Bool
  color_alert_fired : Bool
  deriving Repr, DecidableEq

/-- Embeds `QuotaService.deduct_quota`.  Locking is implicit (the whole function is
the critical section).  A missing row is created and persisted before the
availability re-check; a failed re-check rolls back, leaving the stored row as
it was (the creation, being committed by `save()`, survives).  On success the
incremented counters are committed, then the threshold alerts run: the two
`*_send_fails` oracles stand for an exception inside `_send_quota_alert`,
which the blanket `except` turns into a failure return even though the
deduction is already committed (and the channel's flag is then never
latched). -/
def deduct_quota (cfg : Config) (topups : List QuotaTopup)
    (bw_send_fails color_send_fails : Bool)
    (bw_quantity color_quantity : Int) (qs : Option ClientQuota) : DeductResult :=
  let quota := (get_or_create cfg qs).1
  let cf := can_fulfill quota topups bw_quantity color_quantity
  if cf.1 then
    let quota1 :=
      { quota with
          bw_used := quota.bw_used + bw_quantity
          color_used := quota.color_used + color_quantity }
    let alert := check_usage_threshold cfg.quota_warning_threshold quota1 topups
    if alert.bw_exceeded && bw_send_fails then
      { success := false
        error := some "Failed to deduct quota: alert delivery failed"
        state := some quota1
        bw_alert_fired := false
        color_alert_fired := false }
    else
      let quota2 := if alert.bw_exceeded then mark_alert_sent quota1 "bw" else quota1
      if alert.color_exceeded && color_send_fails then
        { success := false
          error := some "Failed to deduct quota: alert delivery failed"
          state := some quota2
          bw_alert_fired := alert.bw_exceeded
          color_alert_fired := false }
      else
        let quota3 := if alert.color_exceeded then mark_alert_sent quota2 "color" else quota2
        { success := true
          error := none
          state := some quota3
          bw_alert_fired := alert.bw_exceeded
          color_alert_fired := alert.color_exceeded }
  else
    { success := false
      error := some cf.2
      state := (get_or_create cfg qs).2
      bw_alert_fired := false
      color_alert_fired := false }

/-- Result of `QuotaService.refund_quota`, plus the stored quota row after. -/
structure RefundResult where
  success : Bool
  error : Option String
  state : Option ClientQuota
  deriving Repr, DecidableEq

/-- Embeds `QuotaService.refund_quota`: a missing row is a successful no-op; an
existing row has both counters decremented, floored at zero. -/
def refund_quota (bw_quantity color_quantity : Int)
    (qs : Option ClientQuota) : RefundResult :=
  match qs with
  | none => { success := true, error := none, state := none }
  | some quota =>
      { success := true
        error := none
        state := some
          { quota with
              bw_used := max 0 (quota.bw_used - bw_quantity)
              color_used := max 0 (quota.color_used - color_quantity) } }

/-- Embeds `OrderStatus` enum from `app/models/order.py`. -/
inductive OrderStatus where
  | pending
  | validated
  | processing
  | completed
  deriving Repr, DecidableEq

/-- Embeds `OrderStatus.value` / `Order.status_value`: the enum's string value. -/
def OrderStatus.value : OrderStatus → String
  | .pending => "pending"
  | .validated => "validated"
  | .processing => "processing"
  | .completed => "completed"

/-- Embeds `OrderStatus(s)` construction: the enum member for a status string. -/
def statusOfString (s : String) : Option OrderStatus :=
  if s = "pending" then some .pending
  else if s = "validated" then some .validated
  else if s = "processing" then some .processing
  else if s = "completed" then some .completed
  else none

/-- The `allowed_transitions` table in `Order.change_status` (and repeated in
`OrderService.change_order_status`), with `.get(current, [])` defaulting. -/
def allowed_transitions (current : String) : List String :=
  if current = "pending" then ["validated"]
  else if current = "validated" then ["processing"]
  else if current = "processing" then ["completed"]
  else if current = "completed" then []
  else []

/-- An `orders` row (`Order` in `app/models/order.py`), restricted to the
fields the admission controller and lifecycle read/write. -/
structure OrderRec where
  oid : Nat
  client_id : Int
  agent_id : Option Int
  status : OrderStatus
  bw_quantity : Int
  color_quantity : Int
  external_order_id : Option String
  import_id : Option Nat
  deriving Repr, DecidableEq

/-- Embeds `Order.change_status`: validate the requested transition against the
table; on success update the status (audit logging elided), else leave the
order unchanged and report failure. -/
def change_status (o : OrderRec) (new_status : String) : Bool × OrderRec :=
  let current := o.status.value
  if new_status ∈ allowed_transitions current then
    match statusOfString new_status with
    | some ns => (true, { o with status := ns })
    | none => (false, o)
  else
    (false, o)

/-- A `users` row (`User` in `app/models/user.py`), restricted to the
role/active fields the admission controller reads (`is_client`, `is_agent`
are the role predicates). -/
structure User where
  user_id : Int
  is_client : Bool
  is_agent : Bool
  is_active : Bool
  deriving Repr, DecidableEq

/-- Embeds `User.get_by_id` over the users table. -/
def get_by_id (users : List User) (uid : Int) : Option User :=
  users.find? (fun u => u.user_id == uid)

/-- Embeds `Order.get_by_external_id` over the orders table. -/
def get_by_external_id (orders : List OrderRec) (ext : String) : Option OrderRec :=
  orders.find? (fun o => o.external_order_id == some ext)

/-- Embeds `Order.count_active_for_agent`: orders assigned to the agent whose status
is pending, validated or processing. -/
def count_active_for_agent (orders : List OrderRec) (agent_id : Int) : Nat :=
  (orders.filter (fun o =>
    o.agent_id == some agent_id &&
      (o.status == .pending || o.status == .validated || o.status == .processing))).length

/-- Embeds `User.get_active_orders_count`: zero for non-agents. -/
def get_active_orders_count (u : User) (orders : List OrderRec) : Nat :=
  if !u.is_agent then 0 else count_active_for_agent orders u.user_id

/-- Embeds `User.can_accept_order`: an agent may take a new order while its active
count is strictly below the limit. -/
def can_accept_order (u : User) (orders : List OrderRec) (max_limit : Int) : Bool :=
  if !u.is_agent then false
  else decide ((get_active_orders_count u orders : Int) < max_limit)

/-- The persistent state `create_order` touches: the orders table, the one
(client, month) quota row in play, and the id the next saved order gets. -/
structure St where
  orders : List OrderRec
  quota : Option ClientQuota
  next_oid : Nat
  deriving Repr, DecidableEq

/-- The client-validation block at the top of `OrderService.create_order`:
`none` means the checks passed, `some err` the returned error message. -/
def validate_client (users : List User) (client_id : Int) : Option String :=
  match get_by_id users client_id with
  | none => some "Invalid client ID"
  | some client =>
    if !client.is_client then some "Invalid client ID"
    else if !client.is_active then some "Client account is not active"
    else none

/-- Outcome of the duplicate-external-id block of `create_order`. -/
inductive DupOutcome where
  | proceed
  | rejectDup (msg : String)
  | returnExisting (o : OrderRec)
  deriving Repr, DecidableEq

/-- The duplicate-external-id block of `OrderService.create_order`: with an
existing order carrying the id, mode `reject` fails, mode `skip` returns the
existing order, and any other configured mode falls through (the source has
no further branch) and proceeds to create a new order. -/
def dup_check (cfg : Config) (orders : List OrderRec)
    (external_order_id : Option String) : DupOutcome :=
  match external_order_id with
  | none => .proceed
  | some ext =>
    match get_by_external_id orders ext with
    | none => .proceed
    | some existing =>
      if cfg.csv_idempotency_mode = "reject" then
        .rejectDup s!"Duplicate order: external_order_id \"{ext}\" already exists"
      else if cfg.csv_idempotency_mode = "skip" then
        .returnExisting existing
      else
        .proceed

/-- The agent-validation block of `OrderService.create_order`. -/
def validate_agent (cfg : Config) (users : List User) (orders : List OrderRec)
    (agent_id : Option Int) : Option String :=
  match agent_id with
  | none => none
  | some aid =>
    match get_by_id users aid with
    | none => some "Invalid agent ID"
    | some agent =>
      if !agent.is_agent then some "Invalid agent ID"
      else if !agent.is_active then some "Agent account is not active"
      else if !can_accept_order agent orders cfg.max_active_orders then
        let active_count := get_active_orders_count agent orders
        let max_limit := cfg.max_active_orders
        some s!"Agent workload limit exceeded. Active orders: {active_count}/{max_limit}"
      else none

/-- Result of `OrderService.create_order`, plus the state after the call. -/
structure CreateResult where
  ok : Bool
  order : Option OrderRec
  error : Option String
  state : St
  deriving Repr, DecidableEq

/-- Embeds `OrderService.create_order`: validate client, duplicate external id and
agent; check quota availability (which may lazily persist the quota row);
persist the order with status pending; deduct quota (the `interfere` function
stands for concurrent deducts hitting the row between check and deduct, and
the two oracles for alert-delivery exceptions inside the deduct); on deduct
failure delete the just-created order and return the deduct error.  Audit
logging and notifications are elided. -/
def create_order (cfg : Config) (users : List User) (topups : List QuotaTopup)
    (interfere : Option ClientQuota → Option ClientQuota)
    (bw_send_fails color_send_fails : Bool)
    (client_id : Int) (bw_quantity color_quantity : Int)
    (agent_id : Option Int) (external_order_id : Option String)
    (import_id : Option Nat) (st : St) : CreateResult :=
  match validate_client users client_id with
  | some err => { ok := false, order := none, error := some err, state := st }
  | none =>
    match dup_check cfg st.orders external_order_id with
    | .rejectDup msg => { ok := false, order := none, error := some msg, state := st }
    | .returnExisting existing =>
        { ok := true, order := some existing, error := none, state := st }
    | .proceed =>
      match validate_agent cfg users st.orders agent_id with
      | some err => { ok := false, order := none, error := some err, state := st }
      | none =>
        let check := check_quota_available cfg topups bw_quantity color_quantity st.quota
        if !check.ok then
          { ok := false, order := none, error := check.error
            state := { st with quota := check.state } }
        else
          let order : OrderRec :=
            { oid := st.next_oid
              client_id := client_id
              agent_id := agent_id
              status := .pending
              bw_quantity := bw_quantity
              color_quantity := color_quantity
              external_order_id := external_order_id
              import_id := import_id }
          let qs1 := interfere check.state
          let d := deduct_quota cfg topups bw_send_fails color_send_fails
            bw_quantity color_quantity qs1
          if !d.success then
            { ok := false
              order := none
              error := some ("Failed to deduct quota: " ++ d.error.getD "")
              state := { orders := st.orders, quota := d.state, next_oid := st.next_oid + 1 } }
          else
            { ok := true
              order := some order
              error := none
              state :=
                { orders := st.orders ++ [order]
                  quota := d.state
                  next_oid := st.next_oid + 1 } }

/-- Result of `OrderService.change_order_status`, plus the orders table
after the call. -/
structure StatusChangeResult where
  success : Bool
  error : Option String
  orders : List OrderRec
  deriving Repr, DecidableEq

/-- Replace the order with the given id in the table. -/
def update_order (orders : List OrderRec) (o : OrderRec) : List OrderRec :=
  orders.map (fun x => if x.oid == o.oid then o else x)

/-- Embeds `OrderService.change_order_status`: load the order, attempt the
transition, and on refusal rebuild the invalid-transition message that
enumerates the allowed set (notifications elided). -/
def change_order_status (orders : List OrderRec) (order_id : Nat)
    (new_status : String) : StatusChangeResult :=
  match orders.find? (fun o => o.oid == order_id) with
  | none => { success := false, error := some "Order not found", orders := orders }
  | some order =>
    let old_status := order.status.value
    let cs := change_status order new_status
    if cs.1 then
      { success := true, error := none, orders := update_order orders cs.2 }
    else
      let allowed := allowed_transitions old_status
      let allowed_str := if allowed.isEmpty then "none" else String.intercalate ", " allowed
      { success := false
        error := some s!"Invalid status transition from \"{old_status}\" to \"{new_status}\". Allowed: {allowed_str}"
        orders := orders }

/-- One parsed CSV data row, restricted to the columns the batch pipeline
branches on (email, phone and paper columns of the source are elided; the
quantity cells are already parsed integers, `validate_integer`'s minimum
check becoming a sign check). -/
structure CsvRow where
  client_id : Option Int
  agent_id : Option Int
  bw_quantity : Int
  color_quantity : Int
  external_order_id : Option String
  deriving Repr, DecidableEq

/-- Embeds `app/utils/validators.validate_csv_row_data` on the modelled columns:
required client reference, nonnegative quantities, at least one positive. -/
def validate_csv_row_data (row : CsvRow) (row_number : Nat) : Bool × List String :=
  let errors :=
    (if row.client_id = none then
      [s!"Row {row_number}: Either client_id or client_email is required"] else [])
    ++ (if row.bw_quantity < 0 then
      [s!"Row {row_number}: bw_quantity must be at least 0"] else [])
    ++ (if row.color_quantity < 0 then
      [s!"Row {row_number}: color_quantity must be at least 0"] else [])
    ++ (if row.bw_quantity = 0 ∧ row.color_quantity = 0 then
      [s!"Row {row_number}: At least one of bw_quantity or color_quantity must be greater than 0"] else [])
  (errors.isEmpty, errors)

/-- One entry of the `rows` list `CSVService.parse_and_validate_csv` builds:
the resolved client/agent ids, the accumulated per-row errors and the
validity flag. -/
structure RowResult where
  row_number : Nat
  row : CsvRow
  resolved_client_id : Option Int
  resolved_agent_id : Option Int
  errors : List String
  is_valid : Bool
  deriving Repr, DecidableEq

/-- The per-row body of `CSVService.parse_and_validate_csv`: shape
validation, client and agent resolution (role-checked), duplicate
external-id detection within the file (`seen`) and against the orders
table.  Returns the row result and the updated seen set. -/
def parse_row (users : List User) (orders : List OrderRec)
    (seen : List String) (row_number : Nat) (row : CsvRow) :
    RowResult × List String :=
  let v := validate_csv_row_data row row_number
  let client_part :
      Option Int × List String :=
    match row.client_id with
    | some cid =>
      match get_by_id users cid with
      | none => (none, [s!"Row {row_number}: Invalid client_id"])
      | some c =>
        if !c.is_client then (some c.user_id, [s!"Row {row_number}: Invalid client_id"])
        else (some c.user_id, [])
    | none => (none, [])
  let agent_part :
      Option Int × List String :=
    match row.agent_id with
    | some aid =>
      match get_by_id users aid with
      | none => (none, [s!"Row {row_number}: Invalid agent_id"])
      | some a =>
        if !a.is_agent then (some a.user_id, [s!"Row {row_number}: Invalid agent_id"])
        else (some a.user_id, [])
    | none => (none, [])
  let ext_part : List String × List String :=
    match row.external_order_id with
    | none => ([], seen)
    | some ext =>
      if ext ∈ seen then
        ([s!"Row {row_number}: Duplicate external_order_id within file"], seen)
      else
        match get_by_external_id orders ext with
        | some existing =>
          let existing_id := existing.oid
          ([s!"Row {row_number}: external_order_id already exists in database (Order #{existing_id})"],
            seen ++ [ext])
        | none => ([], seen ++ [ext])
  let errors := v.2 ++ client_part.2 ++ agent_part.2 ++ ext_part.1
  ({ row_number := row_number
     row := row
     resolved_client_id := client_part.1
     resolved_agent_id := agent_part.1
     errors := errors
     is_valid := errors.isEmpty },
    ext_part.2)

/-- The aggregate `CSVService.parse_and_validate_csv` returns. -/
structure ParseResult where
  total_rows : Nat
  valid_rows : Nat
  error_rows : Nat
  rows : List RowResult
  errors : List String
  deriving Repr, DecidableEq

/-- Fold of `parse_row` over the data rows, numbering them from 2 as the
source's `enumerate(reader, start=2)` does. -/
def parse_rows_from (users : List User) (orders : List OrderRec) :
    Nat → List String → List CsvRow → List RowResult
  | _, _, [] => []
  | n, seen, row :: rest =>
    let pr := parse_row users orders seen n row
    pr.1 :: parse_rows_from users orders (n + 1) pr.2 rest

/-- Embeds `CSVService.parse_and_validate_csv` (file handling elided: the input is
the already-parsed list of data rows). -/
def parse_and_validate_csv (users : List User) (orders : List OrderRec)
    (rows : List CsvRow) : ParseResult :=
  let results := parse_rows_from users orders 2 [] rows
  let valid := (results.filter (fun r => r.is_valid)).length
  let invalid := (results.filter (fun r => !r.is_valid)).length
  { total_rows := results.length
    valid_rows := valid
    error_rows := invalid
    rows := results
    errors := results.foldl (fun acc r => acc ++ r.errors) [] }

/-- The result dictionary `CSVService.validate_and_import` returns:
`success_count`/`error_count` are the lengths of the import-phase lists. -/
structure ImportResult where
  imported_orders : List Nat
  import_errors : List String
  success_count : Nat
  error_count : Nat
  deriving Repr, DecidableEq

/-- Outcome of `CSVService.validate_and_import`, plus the state after. -/
structure ImportOutcome where
  ok : Bool
  result : Option ImportResult
  error : Option String
  state : St
  deriving Repr, DecidableEq

/-- The import loop of `validate_and_import`: one `create_order` per valid
row, accumulating created order ids and per-row import errors; no failure
aborts the loop. -/
def import_valid_rows (cfg : Config) (users : List User) (topups : List QuotaTopup)
    (import_id : Nat) :
    List RowResult → St → List Nat → List String → St × List Nat × List String
  | [], st, imported, errs => (st, imported, errs)
  | r :: rest, st, imported, errs =>
    let cr := create_order cfg users topups (fun q => q) false false
      (r.resolved_client_id.getD 0) r.row.bw_quantity r.row.color_quantity
      r.resolved_agent_id r.row.external_order_id (some import_id) st
    let imported' :=
      match cr.order with
      | some o => if cr.ok then imported ++ [o.oid] else imported
      | none => imported
    let errs' :=
      if cr.ok then errs
      else
        let n := r.row_number
        let msg := cr.error.getD ""
        errs ++ [s!"Row {n}: {msg}"]
    import_valid_rows cfg users topups import_id rest cr.state imported' errs'

/-- Embeds `CSVService.validate_and_import` without corrections: parse and validate
every row, hard-fail when no row is valid, then import the valid rows one by
one; invalid rows are filtered out before the import loop, so only
import-phase failures reach `import_errors`/`error_count`. -/
def validate_and_import (cfg : Config) (users : List User)
    (topups : List QuotaTopup) (import_id : Nat) (rows : List CsvRow)
    (st : St) : ImportOutcome :=
  let pr := parse_and_validate_csv users st.orders rows
  let valid := pr.rows.filter (fun r => r.is_valid)
  if valid.isEmpty then
    { ok := false, result := none, error := some "No valid rows to import", state := st }
  else
    let run := import_valid_rows cfg users topups import_id valid st [] []
    { ok := true
      result := some
        { imported_orders := run.2.1
          import_errors := run.2.2
          success_count := run.2.1.length
          error_count := run.2.2.length }
      error := none
      state := run.1 }

/-- Whether the stored row's B&W alert flag is latched. -/
def bwLatched : Option ClientQuota → Bool
  | none => false
  | some q => q.bw_alert_sent

/-- Whether the stored row's color alert flag is latched. -/
def colorLatched : Option ClientQuota → Bool
  | none => false
  | some q => q.color_alert_sent

/-- A sequence of `deduct_quota` calls against the same (client, month) row
within one month, with no alert-delivery failures.  Returns the final stored
row and, per channel, how many times the alert side-effect ran. -/
def run_deducts (cfg : Config) (topups : List QuotaTopup) :
    List (Int × Int) → Option ClientQuota → Option ClientQuota × Nat × Nat
  | [], qs => (qs, 0, 0)
  | r :: rest, qs =>
    let d := deduct_quota cfg topups false false r.1 r.2 qs
    let out := run_deducts cfg topups rest d.state
    (out.1, (if d.bw_alert_fired then 1 else 0) + out.2.1,
      (if d.color_alert_fired then 1 else 0) + out.2.2)

/-! ### Fixtures for witnesses and counterexamples -/

/-- A small quota row: limits 10/10, nothing used, flags unlatched. -/
def qSmall : ClientQuota := ⟨10, 10, 0, 0, false, false⟩

/-- A default-limits quota row with nothing used. -/
def q30 : ClientQuota := ⟨3000, 2000, 0, 0, false, false⟩

/-- A default-limits quota row with everything used. -/
def qDrained : ClientQuota := ⟨3000, 2000, 3000, 2000, false, false⟩

/-- A quota row whose usage exceeds its total limit. -/
def qOver : ClientQuota := ⟨3000, 2000, 5000, 0, false, false⟩

/-- A users table holding one active client with id 1. -/
def clientOnly : List User := [⟨1, true, false, true⟩]

/-- An order carrying external id "EXT". -/
def extOrder : OrderRec := ⟨1, 1, none, .pending, 5, 0, some "EXT", none⟩

/-- The default configuration with idempotency mode switched to "upsert". -/
def cfgUpsert : Config := { defaultConfig with csv_idempotency_mode := "upsert" }

/-- A valid CSV row for client 1. -/
def rowOk : CsvRow := ⟨some 1, none, 10, 0, none⟩

/-- A CSV row referencing the nonexistent client 99. -/
def rowBadClient : CsvRow := ⟨some 99, none, 10, 0, none⟩

/-- Five CSV rows whose third has an invalid client_id. -/
def sampleBatch : List CsvRow := [rowOk, rowOk, rowBadClient, rowOk, rowOk]

/-- An empty persistent state. -/
def emptySt : St := ⟨[], none, 1⟩

/-! ### Helper lemmas -/

theorem mkRat_toNat_eq_div (a b : Int) (h : 0 < b) :
    mkRat a b.toNat = (a : ℚ) / (b : ℚ) := by
  rw [Rat.mkRat_eq_div]
  congr 1
  exact_mod_cast Int.toNat_of_nonneg (le_of_lt h)

theorem mark_alert_sent_bw_used (q : ClientQuota) (t : String) :
    (mark_alert_sent q t).bw_used = q.bw_used := by
  unfold mark_alert_sent; split <;> try split
  all_goals rfl

theorem mark_alert_sent_color_used (q : ClientQuota) (t : String) :
    (mark_alert_sent q t).color_used = q.color_used := by
  unfold mark_alert_sent; split <;> try split
  all_goals rfl

theorem can_fulfill_true_iff (q : ClientQuota) (topups : List QuotaTopup)
    (bw color : Int) :
    (can_fulfill q topups bw color).1 = true ↔
      (bw ≤ get_available_bw q topups ∧ color ≤ get_available_color q topups) := by
  simp only [can_fulfill]
  split_ifs with h1 h2 <;> simp <;> omega

theorem deduct_quota_cf_false (cfg : Config) (topups : List QuotaTopup)
    (bsf csf : Bool) (bw color : Int) (q : ClientQuota)
    (hcf : (can_fulfill q topups bw color).1 = false) :
    deduct_quota cfg topups bsf csf bw color (some q) =
      { success := false
        error := some (can_fulfill q topups bw color).2
        state := some q
        bw_alert_fired := false
        color_alert_fired := false } := by
  simp only [deduct_quota, get_or_create, hcf]
  simp

theorem deduct_quota_cf_true_state (cfg : Config) (topups : List QuotaTopup)
    (bw color : Int) (q : ClientQuota)
    (hcf : (can_fulfill q topups bw color).1 = true) :
    (deduct_quota cfg topups false false bw color (some q)).success = true ∧
      ∃ q', (deduct_quota cfg topups false false bw color (some q)).state = some q' ∧
        q'.bw_used = q.bw_used + bw ∧ q'.color_used = q.color_used + color := by
  simp only [deduct_quota, get_or_create, hcf]
  simp only [if_true, Bool.and_false, Bool.false_eq_true, if_false]
  constructor
  · trivial
  · refine ⟨_, rfl, ?_, ?_⟩ <;>
    · split <;> split <;>
        simp [mark_alert_sent_bw_used, mark_alert_sent_color_used]

theorem can_fulfill_nonpos (q : ClientQuota) (topups : List QuotaTopup)
    (bw color : Int) (hbw : bw ≤ 0) (hcolor : color ≤ 0) :
    (can_fulfill q topups bw color).1 = true := by
  rw [can_fulfill_true_iff]
  unfold get_available_bw get_available_color
  exact ⟨le_trans hbw (le_max_left _ _), le_trans hcolor (le_max_left _ _)⟩

theorem check_quota_available_state_eq (cfg : Config) (topups : List QuotaTopup)
    (bw color : Int) (qs : Option ClientQuota) :
    (check_quota_available cfg topups bw color qs).state = (get_or_create cfg qs).2 := by
  simp only [check_quota_available]
  split <;> rfl

theorem check_quota_available_ok_eq (cfg : Config) (topups : List QuotaTopup)
    (bw color : Int) (qs : Option ClientQuota) :
    (check_quota_available cfg topups bw color qs).ok =
      (can_fulfill (get_or_create cfg qs).1 topups bw color).1 := by
  simp only [check_quota_available]
  split <;> simp_all

theorem check_quota_available_error_of_fail (cfg : Config) (topups : List QuotaTopup)
    (bw color : Int) (qs : Option ClientQuota)
    (h : (check_quota_available cfg topups bw color qs).ok = false) :
    (check_quota_available cfg topups bw color qs).error.isSome = true := by
  simp only [check_quota_available] at h ⊢
  split at h <;> simp_all

theorem check_quota_available_available_of_ok (cfg : Config) (topups : List QuotaTopup)
    (bw color : Int) (qs : Option ClientQuota)
    (h : (check_quota_available cfg topups bw color qs).ok = true) :
    (check_quota_available cfg topups bw color qs).available =
      some { bw_available := get_available_bw (get_or_create cfg qs).1 topups
             color_available := get_available_color (get_or_create cfg qs).1 topups
             bw_used := (get_or_create cfg qs).1.bw_used
             color_used := (get_or_create cfg qs).1.color_used } := by
  simp only [check_quota_available] at h ⊢
  split at h <;> simp_all

/-! ### Claim theorems -/

/-- C1: for a quota row satisfying the invariant
`used ≤ limit + sum(topups)` on both channels and nonnegative requested
quantities, a successful `deduct_quota` yields a row that still satisfies the
invariant, and a deduct that would violate it fails with the quota-exceeded
error, leaving the row unchanged. -/
theorem c1_deduct_preserves_invariant (cfg : Config) (topups : List QuotaTopup)
    (q : ClientQuota) (bw color : Int)
    (hqb : q.bw_used ≤ q.bw_limit + sumBw topups)
    (hqc : q.color_used ≤ q.color_limit + sumColor topups)
    (hbw : 0 ≤ bw) (hcolor : 0 ≤ color) :
    ((deduct_quota cfg topups false false bw color (some q)).success = true →
      ∃ q', (deduct_quota cfg topups false false bw color (some q)).state = some q' ∧
        q'.bw_used ≤ q.bw_limit + sumBw topups ∧
        q'.color_used ≤ q.color_limit + sumColor topups) ∧
    ((q.bw_limit + sumBw topups < q.bw_used + bw ∨
        q.color_limit + sumColor topups < q.color_used + color) →
      (deduct_quota cfg topups false false bw color (some q)).success = false ∧
      (deduct_quota cfg topups false false bw color (some q)).error.isSome = true ∧
      (deduct_quota cfg topups false false bw color (some q)).state = some q) := by
  have havb : get_available_bw q topups = q.bw_limit + sumBw topups - q.bw_used := by
    unfold get_available_bw
    omega
  have havc : get_available_color q topups = q.color_limit + sumColor topups - q.color_used := by
    unfold get_available_color
    omega
  constructor
  · intro hs
    by_cases hcf : (can_fulfill q topups bw color).1 = true
    · obtain ⟨-, q', hst, hb, hc⟩ := deduct_quota_cf_true_state cfg topups bw color q hcf
      have hiff := (can_fulfill_true_iff q topups bw color).mp hcf
      rw [havb, havc] at hiff
      exact ⟨q', hst, by omega, by omega⟩
    · rw [Bool.not_eq_true] at hcf
      rw [deduct_quota_cf_false cfg topups false false bw color q hcf] at hs
      simp at hs
  · intro hviol
    have hcf : (can_fulfill q topups bw color).1 = false := by
      by_contra h
      rw [Bool.not_eq_false] at h
      have hiff := (can_fulfill_true_iff q topups bw color).mp h
      rw [havb, havc] at hiff
      omega
    rw [deduct_quota_cf_false cfg topups false false bw color q hcf]
    exact ⟨rfl, rfl, rfl⟩

/-- Witness for C1 at a concrete input: limits 10/10, nothing used, a
5/5 deduction. -/
theorem c1_deduct_preserves_invariant_witness :
    (qSmall.bw_used ≤ qSmall.bw_limit + sumBw [] ∧
      qSmall.color_used ≤ qSmall.color_limit + sumColor [] ∧
      (0 : Int) ≤ 5) ∧
    (((deduct_quota defaultConfig [] false false 5 5 (some qSmall)).success = true →
      ∃ q', (deduct_quota defaultConfig [] false false 5 5 (some qSmall)).state = some q' ∧
        q'.bw_used ≤ qSmall.bw_limit + sumBw [] ∧
        q'.color_used ≤ qSmall.color_limit + sumColor []) ∧
    ((qSmall.bw_limit + sumBw [] < qSmall.bw_used + 5 ∨
        qSmall.color_limit + sumColor [] < qSmall.color_used + 5) →
      (deduct_quota defaultConfig [] false false 5 5 (some qSmall)).success = false ∧
      (deduct_quota defaultConfig [] false false 5 5 (some qSmall)).error.isSome = true ∧
      (deduct_quota defaultConfig [] false false 5 5 (some qSmall)).state = some qSmall)) :=
  ⟨⟨by decide, by decide, by decide⟩,
    c1_deduct_preserves_invariant defaultConfig [] qSmall 5 5
      (by decide) (by decide) (by decide) (by decide)⟩

/-- C10: `can_fulfill` accepts every non-positive requested quantity, and a
deduct of a negative B&W quantity succeeds and strictly decreases `bw_used`,
acting as an unintended refund. -/
theorem c10_negative_quantity_accepted :
    (∀ (q : ClientQuota) (topups : List QuotaTopup) (bw color : Int),
      bw ≤ 0 → color ≤ 0 → (can_fulfill q topups bw color).1 = true) ∧
    (∀ (cfg : Config) (topups : List QuotaTopup) (q : ClientQuota),
      (deduct_quota cfg topups false false (-1) 0 (some q)).success = true ∧
      ∃ q', (deduct_quota cfg topups false false (-1) 0 (some q)).state = some q' ∧
        q'.bw_used < q.bw_used) := by
  constructor
  · exact can_fulfill_nonpos
  · intro cfg topups q
    have hcf : (can_fulfill q topups (-1) 0).1 = true :=
      can_fulfill_nonpos q topups (-1) 0 (by omega) le_rfl
    obtain ⟨hs, q', hst, hb, -⟩ := deduct_quota_cf_true_state cfg topups (-1) 0 q hcf
    exact ⟨hs, q', hst, by omega⟩

/-- Witness for C10 at a concrete input: quantities (-3, 0) pass the check,
and a (-1, 0) deduct succeeds on the small fixture row. -/
theorem c10_negative_quantity_accepted_witness :
    ((-3 : Int) ≤ 0 ∧ (0 : Int) ≤ 0 ∧ (can_fulfill qSmall [] (-3) 0).1 = true) ∧
    (deduct_quota defaultConfig [] false false (-1) 0 (some qSmall)).success = true :=
  ⟨⟨by decide, by decide,
      c10_negative_quantity_accepted.1 qSmall [] (-3) 0 (by decide) (by decide)⟩,
    (c10_negative_quantity_accepted.2 defaultConfig [] qSmall).1⟩

/-- C7: `refund_quota` on a missing row is a successful no-op, and on an
existing row both usage counters stay at or above zero whatever the refunded
quantities are. -/
theorem c7_refund_noop_and_floored :
    (∀ bw color : Int, refund_quota bw color none =
      { success := true, error := none, state := none }) ∧
    (∀ (q : ClientQuota) (bw color : Int),
      (refund_quota bw color (some q)).success = true ∧
      ∃ q', (refund_quota bw color (some q)).state = some q' ∧
        0 ≤ q'.bw_used ∧ 0 ≤ q'.color_used) := by
  constructor
  · intro bw color
    rfl
  · intro q bw color
    exact ⟨rfl, _, rfl, le_max_left _ _, le_max_left _ _⟩

/-- C4 (code bug): deducting 9 of 10 B&W crosses the 80% threshold; when the
alert side-effect raises, `deduct_quota` returns failure — the blanket
`except` converts the alert exception into a failed deduct — even though the
deduction is already committed (`bw_used = 9` persists) and the alert flag is
never latched.  The spec requires alert failures not to fail the owning
quota operation. -/
theorem c4_alert_exception_fails_deduct :
    (deduct_quota defaultConfig [] true false 9 0 (some qSmall)).success = false ∧
    (deduct_quota defaultConfig [] true false 9 0 (some qSmall)).error.isSome = true ∧
    (deduct_quota defaultConfig [] true false 9 0 (some qSmall)).state =
      some ⟨10, 10, 9, 0, false, false⟩ := by
  decide

/-- C9 counterexample: with no stored row, `check_quota_available` persists a
freshly created quota row (it is not read-only as claimed); and on a row whose
usage exceeds its total limit it reports `available = 0`, not the claimed
`limit + topups - used` (which would be -2000). -/
theorem c9_counterexample :
    (check_quota_available defaultConfig [] 0 0 none).state =
      some (freshQuota defaultConfig) ∧
    ¬((check_quota_available defaultConfig [] 0 0 none).state = none) ∧
    (check_quota_available defaultConfig [] 0 0 (some qOver)).ok = true ∧
    (check_quota_available defaultConfig [] 0 0 (some qOver)).available =
      some ⟨0, 2000, 5000, 0⟩ ∧
    ¬((0 : Int) = qOver.bw_limit + sumBw [] - qOver.bw_used) := by
  decide

/-- C9 (amended): `check_quota_available` leaves an existing quota row
unchanged and succeeds exactly when both requested quantities fit under
`available = max 0 (limit + sum(topups) - used)` per channel, reporting those
floored amounts on success and a quota-exceeded error otherwise; when no row
exists it creates and persists one seeded with the configured default
limits. -/
theorem c9_check_available_amended (cfg : Config) (topups : List QuotaTopup)
    (bw color : Int) (q : ClientQuota) :
    ((check_quota_available cfg topups bw color (some q)).state = some q ∧
      ((check_quota_available cfg topups bw color (some q)).ok = true ↔
        (bw ≤ max 0 (q.bw_limit + sumBw topups - q.bw_used) ∧
          color ≤ max 0 (q.color_limit + sumColor topups - q.color_used))) ∧
      ((check_quota_available cfg topups bw color (some q)).ok = true →
        (check_quota_available cfg topups bw color (some q)).available =
          some { bw_available := max 0 (q.bw_limit + sumBw topups - q.bw_used)
                 color_available := max 0 (q.color_limit + sumColor topups - q.color_used)
                 bw_used := q.bw_used
                 color_used := q.color_used }) ∧
      ((check_quota_available cfg topups bw color (some q)).ok = false →
        (check_quota_available cfg topups bw color (some q)).error.isSome = true)) ∧
    (check_quota_available cfg topups bw color none).state = some (freshQuota cfg) := by
  refine ⟨⟨?_, ?_, ?_, ?_⟩, ?_⟩
  · exact check_quota_available_state_eq cfg topups bw color (some q)
  · rw [check_quota_available_ok_eq]
    exact can_fulfill_true_iff q topups bw color
  · intro h
    rw [check_quota_available_available_of_ok cfg topups bw color (some q) h]
    rfl
  · exact check_quota_available_error_of_fail cfg topups bw color (some q)
  · exact check_quota_available_state_eq cfg topups bw color none

/-- Witness for C9's amended claim at concrete inputs: an in-budget request
leaves the row untouched, and an out-of-budget request produces an error. -/
theorem c9_check_available_amended_witness :
    (check_quota_available defaultConfig [] 5 5 (some q30)).state = some q30 ∧
    (check_quota_available defaultConfig [] 5 5 (some q30)).available =
      some { bw_available := max 0 (q30.bw_limit + sumBw [] - q30.bw_used)
             color_available := max 0 (q30.color_limit + sumColor [] - q30.color_used)
             bw_used := q30.bw_used
             color_used := q30.color_used } ∧
    (check_quota_available defaultConfig [] 5000 0 (some q30)).error.isSome = true :=
  ⟨(c9_check_available_amended defaultConfig [] 5 5 q30).1.1,
    (c9_check_available_amended defaultConfig [] 5 5 q30).1.2.2.1 (by decide),
    (c9_check_available_amended defaultConfig [] 5000 0 q30).1.2.2.2 (by decide)⟩

/-- C6 counterexample: with idempotency mode "upsert" and an order already
carrying external id "EXT", `create_order` succeeds and persists a second
order with the same external id — it does not fail closed like "reject". -/
theorem c6_counterexample :
    (create_order cfgUpsert clientOnly [] (fun q => q) false false 1 5 0 none
      (some "EXT") none ⟨[extOrder], some q30, 2⟩).ok = true ∧
    (create_order cfgUpsert clientOnly [] (fun q => q) false false 1 5 0 none
      (some "EXT") none ⟨[extOrder], some q30, 2⟩).error = none ∧
    (create_order cfgUpsert clientOnly [] (fun q => q) false false 1 5 0 none
      (some "EXT") none ⟨[extOrder], some q30, 2⟩).state.orders.length = 2 := by
  decide

/-- C6 (amended): with a valid client and an existing order carrying the
external id, mode "reject" fails with the duplicate error and creates
nothing, mode "skip" returns the existing order unchanged, and any other
configured mode (in particular "upsert") skips the duplicate guard entirely
and proceeds to create a new order. -/
theorem c6_idempotency_mode_amended (cfg : Config) (users : List User)
    (topups : List QuotaTopup) (interfere : Option ClientQuota → Option ClientQuota)
    (bsf csf : Bool) (client_id bw color : Int) (agent_id : Option Int)
    (imp : Option Nat) (st : St) (ext : String) (existing : OrderRec)
    (hc : validate_client users client_id = none)
    (hex : get_by_external_id st.orders ext = some existing) :
    (cfg.csv_idempotency_mode = "reject" →
      create_order cfg users topups interfere bsf csf client_id bw color agent_id
          (some ext) imp st =
        { ok := false
          order := none
          error := some s!"Duplicate order: external_order_id \"{ext}\" already exists"
          state := st }) ∧
    (cfg.csv_idempotency_mode = "skip" →
      create_order cfg users topups interfere bsf csf client_id bw color agent_id
          (some ext) imp st =
        { ok := true, order := some existing, error := none, state := st }) ∧
    (cfg.csv_idempotency_mode ≠ "reject" → cfg.csv_idempotency_mode ≠ "skip" →
      dup_check cfg st.orders (some ext) = .proceed) := by
  refine ⟨?_, ?_, ?_⟩
  · intro hm
    have hd : dup_check cfg st.orders (some ext) =
        .rejectDup s!"Duplicate order: external_order_id \"{ext}\" already exists" := by
      simp [dup_check, hex, hm]
    simp [create_order, hc, hd]
  · intro hm
    have hd : dup_check cfg st.orders (some ext) = .returnExisting existing := by
      simp [dup_check, hex, hm]
    simp [create_order, hc, hd]
  · intro h1 h2
    simp [dup_check, hex, h1, h2]

/-- Witness for C6's amended claim: the "upsert" fixture falls through the
duplicate guard, and the default "reject" configuration refuses the
duplicate. -/
theorem c6_idempotency_mode_amended_witness :
    dup_check cfgUpsert [extOrder] (some "EXT") = .proceed ∧
    (create_order defaultConfig clientOnly [] (fun q => q) false false 1 5 0 none
      (some "EXT") none ⟨[extOrder], some q30, 2⟩).ok = false := by
  constructor
  · exact (c6_idempotency_mode_amended cfgUpsert clientOnly [] (fun q => q)
      false false 1 5 0 none none ⟨[extOrder], some q30, 2⟩ "EXT" extOrder
      (by decide) (by decide)).2.2 (by decide) (by decide)
  · have h := (c6_idempotency_mode_amended defaultConfig clientOnly [] (fun q => q)
      false false 1 5 0 none none ⟨[extOrder], some q30, 2⟩ "EXT" extOrder
      (by decide) (by decide)).1 rfl
    rw [h]

/-- C2: whenever `create_order` gets past client, duplicate and agent
validation and the availability check, persists the order, and the
subsequent `deduct_quota` fails (for any interference and any
alert-delivery outcome), the whole call returns the deduct error wrapped in
"Failed to deduct quota: " and the orders table is exactly what it was —
the just-created order row is deleted, so no order exists whose quota was
not reserved. -/
theorem c2_compensation_on_deduct_failure (cfg : Config) (users : List User)
    (topups : List QuotaTopup) (interfere : Option ClientQuota → Option ClientQuota)
    (bsf csf : Bool) (client_id bw color : Int) (agent_id : Option Int)
    (ext : Option String) (imp : Option Nat) (st : St)
    (hc : validate_client users client_id = none)
    (hd : dup_check cfg st.orders ext = .proceed)
    (ha : validate_agent cfg users st.orders agent_id = none)
    (hq : (check_quota_available cfg topups bw color st.quota).ok = true)
    (hfail : (deduct_quota cfg topups bsf csf bw color
        (interfere (check_quota_available cfg topups bw color st.quota).state)).success =
      false) :
    create_order cfg users topups interfere bsf csf client_id bw color agent_id
        ext imp st =
      { ok := false
        order := none
        error := some ("Failed to deduct quota: " ++
          ((deduct_quota cfg topups bsf csf bw color
            (interfere (check_quota_available cfg topups bw color st.quota).state)).error.getD ""))
        state :=
          { orders := st.orders
            quota := (deduct_quota cfg topups bsf csf bw color
              (interfere (check_quota_available cfg topups bw color st.quota).state)).state
            next_oid := st.next_oid + 1 } } := by
  simp [create_order, hc, hd, ha, hq, hfail]

/-- Witness for C2: a concurrent deduct (the interference) drains the quota
between check and deduct; the creation is compensated and the orders table
stays empty. -/
theorem c2_compensation_on_deduct_failure_witness :
    (create_order defaultConfig clientOnly [] (fun _ => some qDrained) false false
      1 2000 0 none none none ⟨[], some q30, 1⟩).ok = false ∧
    (create_order defaultConfig clientOnly [] (fun _ => some qDrained) false false
      1 2000 0 none none none ⟨[], some q30, 1⟩).state.orders = [] ∧
    (create_order defaultConfig clientOnly [] (fun _ => some qDrained) false false
      1 2000 0 none none none ⟨[], some q30, 1⟩).error =
      some "Failed to deduct quota: Insufficient B&W quota. Available: 0, Requested: 2000" := by
  have h := c2_compensation_on_deduct_failure defaultConfig clientOnly []
    (fun _ => some qDrained) false false 1 2000 0 none none none ⟨[], some q30, 1⟩
    (by decide) (by decide) (by decide) (by decide) (by decide)
  rw [h]
  refine ⟨rfl, rfl, ?_⟩
  decide

/-- C3: for an order present in the table, `change_order_status` succeeds
exactly when the requested status lies in the allowed set of the current
status, the table being pending→validated→processing→completed with
completed terminal; every refused request yields the invalid-transition
error enumerating the allowed set. -/
theorem c3_transition_closure (orders : List OrderRec) (order_id : Nat)
    (new_status : String) (o : OrderRec)
    (h : orders.find? (fun x => x.oid == order_id) = some o) :
    ((change_order_status orders order_id new_status).success = true ↔
      new_status ∈ allowed_transitions o.status.value) ∧
    (new_status ∉ allowed_transitions o.status.value →
      (change_order_status orders order_id new_status).error =
        some (let old_status := o.status.value
              let allowed := allowed_transitions old_status
              let allowed_str :=
                if allowed.isEmpty then "none" else String.intercalate ", " allowed
              s!"Invalid status transition from \"{old_status}\" to \"{new_status}\". Allowed: {allowed_str}")) ∧
    allowed_transitions "pending" = ["validated"] ∧
    allowed_transitions "validated" = ["processing"] ∧
    allowed_transitions "processing" = ["completed"] ∧
    allowed_transitions "completed" = [] := by
  refine ⟨?_, ?_, by decide, by decide, by decide, by decide⟩
  · by_cases hm : new_status ∈ allowed_transitions o.status.value
    · simp only [change_order_status, h, change_status]
      have hsome : ∃ ns, statusOfString new_status = some ns := by
        cases hs : o.status <;>
          simp_all [allowed_transitions, OrderStatus.value, statusOfString]
      obtain ⟨ns, hns⟩ := hsome
      simp [hm, hns]
    · simp only [change_order_status, h, change_status]
      simp [hm]
  · intro hm
    simp only [change_order_status, h, change_status]
    simp [hm]

/-- Witness for C3: requesting "processing" on a pending order fails with
the message enumerating the allowed set, and requesting "validated"
succeeds. -/
theorem c3_transition_closure_witness :
    (change_order_status [extOrder] 1 "processing").success = false ∧
    (change_order_status [extOrder] 1 "processing").error =
      some "Invalid status transition from \"pending\" to \"processing\". Allowed: validated" ∧
    (change_order_status [extOrder] 1 "validated").success = true := by
  have h1 := c3_transition_closure [extOrder] 1 "processing" extOrder (by decide)
  have h2 := c3_transition_closure [extOrder] 1 "validated" extOrder (by decide)
  refine ⟨?_, ?_, ?_⟩
  · have := h1.1
    by_contra hne
    rw [Bool.not_eq_false] at hne
    have hmem := this.mp hne
    revert hmem
    decide
  · have := h1.2.1 (by decide)
    rw [this]
    decide
  · exact h2.1.mpr (by decide)

/-- C5 counterexample: on the five-row batch whose third row has an invalid
client_id, `validate_and_import` returns success_count = 4 but
error_count = 0 — not 1 as claimed: the invalid row is filtered out before
the import loop and its validation error never reaches the import result. -/
theorem c5_counterexample :
    (validate_and_import defaultConfig clientOnly [] 7 sampleBatch emptySt).ok = true ∧
    (validate_and_import defaultConfig clientOnly [] 7 sampleBatch emptySt).result =
      some { imported_orders := [1, 2, 3, 4]
             import_errors := []
             success_count := 4
             error_count := 0 } ∧
    ¬((validate_and_import defaultConfig clientOnly [] 7 sampleBatch emptySt).result =
      some { imported_orders := [1, 2, 3, 4]
             import_errors := []
             success_count := 4
             error_count := 1 }) := by
  decide

/-- C5 (amended): on that batch the four valid rows are imported as orders
(success_count = 4) and the bad row does not abort the batch, but the import
result's error_count is 0; the invalid client_id error is recorded by the
parse/validate phase (error_rows = 1, the third data row's errors referencing
"Invalid client_id"), not in the import result. -/
theorem c5_batch_row_isolation_amended :
    (validate_and_import defaultConfig clientOnly [] 7 sampleBatch emptySt).result =
      some { imported_orders := [1, 2, 3, 4]
             import_errors := []
             success_count := 4
             error_count := 0 } ∧
    (validate_and_import defaultConfig clientOnly [] 7 sampleBatch emptySt).state.orders =
      [⟨1, 1, none, .pending, 10, 0, none, some 7⟩,
        ⟨2, 1, none, .pending, 10, 0, none, some 7⟩,
        ⟨3, 1, none, .pending, 10, 0, none, some 7⟩,
        ⟨4, 1, none, .pending, 10, 0, none, some 7⟩] ∧
    (parse_and_validate_csv clientOnly [] sampleBatch).error_rows = 1 ∧
    (parse_and_validate_csv clientOnly [] sampleBatch).errors =
      ["Row 4: Invalid client_id"] ∧
    ((parse_and_validate_csv clientOnly [] sampleBatch).rows.filter
      (fun r => !r.is_valid)).map (fun r => r.row_number) = [4] := by
  decide

theorem deduct_quota_none (cfg : Config) (topups : List QuotaTopup)
    (a b : Bool) (bw color : Int) :
    deduct_quota cfg topups a b bw color none =
      deduct_quota cfg topups a b bw color (some (freshQuota cfg)) := rfl

theorem deduct_quota_no_oracle_eq (cfg : Config) (topups : List QuotaTopup)
    (bw color : Int) (q : ClientQuota) :
    deduct_quota cfg topups false false bw color (some q) =
      (let cf := can_fulfill q topups bw color
       if cf.1 then
         let quota1 :=
           { q with bw_used := q.bw_used + bw, color_used := q.color_used + color }
         let alert := check_usage_threshold cfg.quota_warning_threshold quota1 topups
         let quota2 := if alert.bw_exceeded then mark_alert_sent quota1 "bw" else quota1
         let quota3 := if alert.color_exceeded then mark_alert_sent quota2 "color" else quota2
         { success := true, error := none, state := some quota3,
           bw_alert_fired := alert.bw_exceeded, color_alert_fired := alert.color_exceeded }
       else
         { success := false, error := some cf.2, state := some q,
           bw_alert_fired := false, color_alert_fired := false }) := by
  simp only [deduct_quota, get_or_create]
  simp [Bool.and_false]

theorem check_usage_threshold_bw_latched (t : ℚ) (q : ClientQuota)
    (topups : List QuotaTopup) (h : q.bw_alert_sent = true) :
    (check_usage_threshold t q topups).bw_exceeded = false := by
  simp [check_usage_threshold, h]

theorem check_usage_threshold_color_latched (t : ℚ) (q : ClientQuota)
    (topups : List QuotaTopup) (h : q.color_alert_sent = true) :
    (check_usage_threshold t q topups).color_exceeded = false := by
  simp [check_usage_threshold, h]

theorem mark_alert_sent_bw_flag (q : ClientQuota) :
    (mark_alert_sent q "bw").bw_alert_sent = true := by
  simp [mark_alert_sent]

theorem mark_alert_sent_color_flag (q : ClientQuota) :
    (mark_alert_sent q "color").color_alert_sent = true := by
  simp [mark_alert_sent]

theorem mark_alert_sent_color_keeps_bw (q : ClientQuota) :
    (mark_alert_sent q "color").bw_alert_sent = q.bw_alert_sent := by
  simp [mark_alert_sent]

theorem mark_alert_sent_bw_keeps_color (q : ClientQuota) :
    (mark_alert_sent q "bw").color_alert_sent = q.color_alert_sent := by
  simp [mark_alert_sent]

theorem deduct_bw_latch_step (cfg : Config) (topups : List QuotaTopup)
    (bw color : Int) (q : ClientQuota) :
    ((deduct_quota cfg topups false false bw color (some q)).bw_alert_fired = true →
      bwLatched (deduct_quota cfg topups false false bw color (some q)).state = true) ∧
    (q.bw_alert_sent = true →
      (deduct_quota cfg topups false false bw color (some q)).bw_alert_fired = false ∧
      bwLatched (deduct_quota cfg topups false false bw color (some q)).state = true) := by
  rw [deduct_quota_no_oracle_eq]
  by_cases hcf : (can_fulfill q topups bw color).1 = true
  · simp only [hcf, if_true]
    constructor
    · intro hf
      simp only [bwLatched, hf]
      split <;>
        simp [hf, mark_alert_sent_color_keeps_bw, mark_alert_sent_bw_flag]
    · intro hl
      have hex : (check_usage_threshold cfg.quota_warning_threshold
          { q with bw_used := q.bw_used + bw, color_used := q.color_used + color }
          topups).bw_exceeded = false :=
        check_usage_threshold_bw_latched _ _ _ hl
      simp only [hex]
      refine ⟨by simp, ?_⟩
      simp only [bwLatched, Bool.false_eq_true, if_false]
      split <;> simp [mark_alert_sent_color_keeps_bw, hl]
  · rw [Bool.not_eq_true] at hcf
    simp only [hcf, Bool.false_eq_true, if_false, bwLatched]
    refine ⟨fun hf => absurd hf (by simp), fun hl => ⟨by trivial, hl⟩⟩

theorem deduct_color_latch_step (cfg : Config) (topups : List QuotaTopup)
    (bw color : Int) (q : ClientQuota) :
    ((deduct_quota cfg topups false false bw color (some q)).color_alert_fired = true →
      colorLatched (deduct_quota cfg topups false false bw color (some q)).state = true) ∧
    (q.color_alert_sent = true →
      (deduct_quota cfg topups false false bw color (some q)).color_alert_fired = false ∧
      colorLatched (deduct_quota cfg topups false false bw color (some q)).state = true) := by
  rw [deduct_quota_no_oracle_eq]
  by_cases hcf : (can_fulfill q topups bw color).1 = true
  · simp only [hcf, if_true]
    constructor
    · intro hf
      simp only [colorLatched, hf]
      simp [mark_alert_sent_color_flag]
    · intro hl
      have hex : (check_usage_threshold cfg.quota_warning_threshold
          { q with bw_used := q.bw_used + bw, color_used := q.color_used + color }
          topups).color_exceeded = false :=
        check_usage_threshold_color_latched _ _ _ hl
      simp only [hex]
      refine ⟨by simp, ?_⟩
      simp only [colorLatched, Bool.false_eq_true, if_false]
      split <;> simp [mark_alert_sent_bw_keeps_color, hl]
  · rw [Bool.not_eq_true] at hcf
    simp only [hcf, Bool.false_eq_true, if_false, colorLatched]
    refine ⟨fun hf => absurd hf (by simp), fun hl => ⟨by trivial, hl⟩⟩

theorem run_deducts_bw_zero_of_latched (cfg : Config) (topups : List QuotaTopup) :
    ∀ (reqs : List (Int × Int)) (qs : Option ClientQuota),
      bwLatched qs = true → (run_deducts cfg topups reqs qs).2.1 = 0
  | [], _, _ => rfl
  | r :: rest, qs, h => by
    cases qs with
    | none => simp [bwLatched] at h
    | some q =>
      have hstep := (deduct_bw_latch_step cfg topups r.1 r.2 q).2 h
      have hrest := run_deducts_bw_zero_of_latched cfg topups rest
        (deduct_quota cfg topups false false r.1 r.2 (some q)).state hstep.2
      simp [run_deducts, hstep.1, hrest]

theorem run_deducts_color_zero_of_latched (cfg : Config) (topups : List QuotaTopup) :
    ∀ (reqs : List (Int × Int)) (qs : Option ClientQuota),
      colorLatched qs = true → (run_deducts cfg topups reqs qs).2.2 = 0
  | [], _, _ => rfl
  | r :: rest, qs, h => by
    cases qs with
    | none => simp [colorLatched] at h
    | some q =>
      have hstep := (deduct_color_latch_step cfg topups r.1 r.2 q).2 h
      have hrest := run_deducts_color_zero_of_latched cfg topups rest
        (deduct_quota cfg topups false false r.1 r.2 (some q)).state hstep.2
      simp [run_deducts, hstep.1, hrest]

theorem run_deducts_bw_le_one (cfg : Config) (topups : List QuotaTopup) :
    ∀ (reqs : List (Int × Int)) (qs : Option ClientQuota),
      (run_deducts cfg topups reqs qs).2.1 ≤ 1
  | [], _ => by simp [run_deducts]
  | r :: rest, qs => by
    by_cases hf : (deduct_quota cfg topups false false r.1 r.2 qs).bw_alert_fired = true
    · have hlat : bwLatched (deduct_quota cfg topups false false r.1 r.2 qs).state = true := by
        cases qs with
        | some q => exact (deduct_bw_latch_step cfg topups r.1 r.2 q).1 hf
        | none =>
          rw [deduct_quota_none] at hf ⊢
          exact (deduct_bw_latch_step cfg topups r.1 r.2 (freshQuota cfg)).1 hf
      have hrest := run_deducts_bw_zero_of_latched cfg topups rest
        (deduct_quota cfg topups false false r.1 r.2 qs).state hlat
      simp [run_deducts, hf, hrest]
    · rw [Bool.not_eq_true] at hf
      have hrest := run_deducts_bw_le_one cfg topups rest
        (deduct_quota cfg topups false false r.1 r.2 qs).state
      simpa [run_deducts, hf] using hrest

theorem run_deducts_color_le_one (cfg : Config) (topups : List QuotaTopup) :
    ∀ (reqs : List (Int × Int)) (qs : Option ClientQuota),
      (run_deducts cfg topups reqs qs).2.2 ≤ 1
  | [], _ => by simp [run_deducts]
  | r :: rest, qs => by
    by_cases hf : (deduct_quota cfg topups false false r.1 r.2 qs).color_alert_fired = true
    · have hlat : colorLatched (deduct_quota cfg topups false false r.1 r.2 qs).state = true := by
        cases qs with
        | some q => exact (deduct_color_latch_step cfg topups r.1 r.2 q).1 hf
        | none =>
          rw [deduct_quota_none] at hf ⊢
          exact (deduct_color_latch_step cfg topups r.1 r.2 (freshQuota cfg)).1 hf
      have hrest := run_deducts_color_zero_of_latched cfg topups rest
        (deduct_quota cfg topups false false r.1 r.2 qs).state hlat
      simp [run_deducts, hf, hrest]
    · rw [Bool.not_eq_true] at hf
      have hrest := run_deducts_color_le_one cfg topups rest
        (deduct_quota cfg topups false false r.1 r.2 qs).state
      simpa [run_deducts, hf] using hrest

/-- C8: over any sequence of deducts against the same (client, month) quota
row within one month, the warning alert side-effect runs at most once per
channel: the first firing latches the per-channel flag, and later deducts —
in particular a second consecutive deduct that also leaves usage at or above
the threshold — do not fire again. -/
theorem c8_alert_latch (cfg : Config) (topups : List QuotaTopup)
    (reqs : List (Int × Int)) (qs : Option ClientQuota) :
    (run_deducts cfg topups reqs qs).2.1 ≤ 1 ∧
    (run_deducts cfg topups reqs qs).2.2 ≤ 1 :=
  ⟨run_deducts_bw_le_one cfg topups reqs qs,
    run_deducts_color_le_one cfg topups reqs qs⟩

end VersatilePrint
